import Mathlib

/-!
Shallow embedding of the golibafl fuzzer front-end (src/src/main.rs).

The file models the configuration and control flow that `main.rs` builds around
the libafl library: the harness closure, the objective and feedback oracles,
the corpus stores, the seed-loading dispatch, the stage pipeline, the mutator
configuration, the executor timeouts and the `run` replay mode.

Bytes are modelled as `Nat` (values below 256), byte strings as `List Nat`,
Rust `Result` as `Except`, and panics as an explicit `fatal` outcome.
Library internals that are not part of this repository (libafl) are modelled
from the specification and marked `Modelled from the spec:` in their doc
comments; everything else is translated directly from `src/src/main.rs`.
-/

namespace Golibafl

/-- `ExitKind` of libafl as used by `main.rs`: the result classification of one
harness execution. -/
inductive ExitKind where
  | ok
  | crash
  | timeout
deriving DecidableEq, Repr

/-! ## The harness closure (src/src/main.rs lines 211-217)

```rust
let mut harness = |input: &BytesInput| {
    let target = input.target_bytes();
    unsafe { libfuzzer_test_one_input(&target); }
    ExitKind::Ok
};
```

The Go target `libfuzzer_test_one_input` is opaque; it is modelled as an
arbitrary function `target` whose value is discarded, exactly as the closure
discards the C return value. -/

/-- The in-process harness closure of `fuzz`: runs the opaque target on the
input bytes and returns `ExitKind::Ok` unconditionally. -/
def harness (target : List Nat → Unit) (input : List Nat) : ExitKind :=
  let _ := target input
  ExitKind.ok

/-! ## Seed loading dispatch (src/src/main.rs lines 252-286)

```rust
if state.must_load_initial_inputs() {
    if read_dir(input).iter().len() == 0 {
        // Generator of printable bytearrays of max size 32
        let mut generator = RandBytesGenerator::new(nonzero!(32));
        state.generate_initial_inputs(..., 8).expect("Failed to generate the initial corpus");
    } else {
        state.load_initial_inputs(...).unwrap_or_else(|_| {
            panic!("Failed to load initial corpus at {:?}", input);
        });
    }
}
```

`read_dir` returns `io::Result<ReadDir>`; calling `.iter()` on the `Result`
itself iterates over the `Ok` value, so its length is `1` when `read_dir`
succeeded and `0` when it failed. -/

/-- Rust `Result::iter().len()`: iterating a `Result` value yields exactly one
item when it is `Ok` and none when it is `Err`. -/
def resultIterLen {ε α : Type} : Except ε α → Nat
  | Except.ok _ => 1
  | Except.error _ => 0

/-- Which of the two seed-bootstrap branches `fuzz` takes. -/
inductive SeedBranch where
  | generate
  | loadFromDisk
deriving DecidableEq, Repr

/-- The branch dispatch of `fuzz` at line 253: the generator branch is taken
exactly when `read_dir(input).iter().len() == 0`.  The directory listing is a
list of entry names. -/
def seedBranch {ε : Type} (readDirResult : Except ε (List String)) : SeedBranch :=
  if resultIterLen readDirResult == 0 then SeedBranch.generate
  else SeedBranch.loadFromDisk

/-- Whether a directory listing result denotes an existing, empty directory. -/
def dirExistsAndIsEmpty {ε : Type} : Except ε (List String) → Bool
  | Except.ok entries => entries.isEmpty
  | Except.error _ => false

/-- Maximum length of generated bootstrap seeds: `RandBytesGenerator::new(nonzero!(32))`. -/
def generatorMaxLen : Nat := 32

/-- Number of bootstrap seeds requested: `generate_initial_inputs(..., 8)`. -/
def generatorCount : Nat := 8

/-- A byte the `RandBytesGenerator` may draw: any value `0..=255`, the full
byte range (the generator is `RandBytesGenerator`, not the printable variant). -/
def randBytesInRange (b : Nat) : Bool := b < 256

/-- A printable ASCII byte. -/
def printableByte (b : Nat) : Bool := 32 ≤ b && b < 127

/-! ## Stage pipeline (src/src/main.rs line 239)

```rust
let mut stages = tuple_list!(calibration, tracing, i2s, power);
```
-/

/-- The four per-iteration stages built in `fuzz`. -/
inductive Stage where
  | calibration
  | tracing
  | i2s
  | power
deriving DecidableEq, Repr

/-- The stage tuple of line 239, in the order the `tuple_list!` macro lists
them; libafl runs a stage tuple front to back. -/
def stages : List Stage := [Stage.calibration, Stage.tracing, Stage.i2s, Stage.power]

/-- Event emitted when a stage runs on the scheduled entry. -/
inductive StageEvent where
  | ranCalibration
  | ranTracing
  | ranI2S
  | ranPower
deriving DecidableEq, Repr

/-- The event one stage emits. -/
def stageEvent : Stage → StageEvent
  | Stage.calibration => StageEvent.ranCalibration
  | Stage.tracing => StageEvent.ranTracing
  | Stage.i2s => StageEvent.ranI2S
  | Stage.power => StageEvent.ranPower

/-- The trace of one fuzz-loop iteration over a scheduled entry: the stage
list executed sequentially, front to back, emitting one event per stage. -/
def iterationTrace : List StageEvent := stages.map stageEvent

/-! ## Objective oracle (src/src/main.rs line 163)

```rust
let mut objective = feedback_or_fast!(CrashFeedback::new());
```

The only sub-check wired in is the crash detector; no timeout detector is
present. -/

/-- Modelled from the spec: the dedicated crash detector (`CrashFeedback`) is
true exactly on a `Crash` execution result. -/
def crashCheck (k : ExitKind) : Bool := k == ExitKind.crash

/-- Modelled from the spec: the dedicated timeout detector (`TimeoutFeedback`)
is true exactly on a `Timeout` execution result.  `main.rs` does not include
it in the objective. -/
def timeoutCheck (k : ExitKind) : Bool := k == ExitKind.timeout

/-- The objective oracle of `fuzz`: the short-circuiting OR of line 163, whose
only member is the crash detector. -/
def objectiveIsSolution (k : ExitKind) : Bool := crashCheck k

/-- Fuzzer state relevant to result classification: the active corpus and the
solution store, each a list of inputs in insertion order. -/
structure FuzzState where
  corpus : List (List Nat)
  solutions : List (List Nat)
deriving DecidableEq, Repr

/-- Modelled from the spec: the post-execution bookkeeping of the fuzzer.  An
input classified a solution by the objective oracle is appended to the
solution store; otherwise, if the feedback oracle judged it interesting, it is
appended to the active corpus; otherwise it is discarded. -/
def processExecution (st : FuzzState) (inp : List Nat) (k : ExitKind)
    (interesting : Bool) : FuzzState :=
  if objectiveIsSolution k then { st with solutions := st.solutions ++ [inp] }
  else if interesting then { st with corpus := st.corpus ++ [inp] }
  else st

/-! ## Feedback oracle (src/src/main.rs lines 152-160)

```rust
let map_feedback = MaxMapFeedback::new(&edges_observer);
let mut feedback = feedback_or_fast!(map_feedback, TimeFeedback::new(&time_observer));
```
-/

/-- Name of a sub-feedback of the combined feedback oracle. -/
inductive SubFeedback where
  | map
  | time
deriving DecidableEq, Repr

/-- Modelled from the spec: `MaxMapFeedback` is interesting iff some position
of the coverage vector strictly exceeds the value recorded in the global
feedback state, i.e. the execution hit a new edge or a higher hit-count bucket
on some edge. -/
def mapIsInteresting (hist obs : List Nat) : Bool :=
  (List.zip obs hist).any fun p => p.2 < p.1

/-- Modelled from the spec: when the map feedback fires, the global feedback
state is raised to the pointwise maximum of the old state and the coverage
vector. -/
def mapUpdate (hist obs : List Nat) : List Nat := List.zipWith max hist obs

/-- Modelled from the spec: `TimeFeedback` is interesting iff the execution
time sets a new minimum against the recorded best time. -/
def timeIsInteresting (best : Option Nat) (t : Nat) : Bool :=
  match best with
  | none => true
  | some b => t < b

/-- The global state the feedback oracle reads and updates: the all-time
coverage history and the best known execution time. -/
structure FeedbackState where
  hist : List Nat
  bestTime : Option Nat
deriving DecidableEq, Repr

/-- Result of one evaluation of the combined feedback oracle: the verdict, the
updated global state, and which sub-feedbacks were actually evaluated. -/
structure FeedbackEval where
  interesting : Bool
  state : FeedbackState
  evaluated : List SubFeedback
deriving DecidableEq, Repr

/-- The combined feedback oracle of lines 155-160: `feedback_or_fast!` over
exactly the map feedback and the time feedback, in that order, with
short-circuiting — when the map feedback fires, the time feedback is skipped. -/
def evalFeedback (st : FeedbackState) (obs : List Nat) (t : Nat) : FeedbackEval :=
  if mapIsInteresting st.hist obs then
    { interesting := true
      state := { st with hist := mapUpdate st.hist obs }
      evaluated := [SubFeedback.map] }
  else if timeIsInteresting st.bestTime t then
    { interesting := true
      state := { st with bestTime := some t }
      evaluated := [SubFeedback.map, SubFeedback.time] }
  else
    { interesting := false
      state := st
      evaluated := [SubFeedback.map, SubFeedback.time] }

/-! ## Run mode (src/src/main.rs lines 92-121)

```rust
for f in &files {
    println!("Running: {}", f.display());
    let inp = std::fs::read(f).unwrap_or_else(|_| panic!("Unable to read file {}", &f.display()));
    if inp.len() > 1 {
        println!("INPUT: {inp:?}");
        unsafe { libfuzzer_test_one_input(&inp); }
    }
}
```
-/

/-- Observable event of `run` mode, per file. -/
inductive RunEvent where
  | printedRunning (contents : List Nat)
  | printedInput (contents : List Nat)
  | executed (contents : List Nat)
deriving DecidableEq, Repr

/-- The events `run` emits for one readable file: the banner always; the input
dump and the single harness execution only when the contents are longer than
one byte. -/
def runFileEvents (inp : List Nat) : List RunEvent :=
  RunEvent.printedRunning inp ::
    (if 1 < inp.length then [RunEvent.printedInput inp, RunEvent.executed inp] else [])

/-- The events `run` emits over a whole directory listing of readable files,
in order. -/
def runDirEvents (files : List (List Nat)) : List RunEvent :=
  (files.map runFileEvents).flatten

/-- Number of harness executions on contents `inp` within an event trace. -/
def countExecuted (inp : List Nat) : List RunEvent → Nat
  | [] => 0
  | RunEvent.executed c :: rest =>
      (if c = inp then 1 else 0) + countExecuted inp rest
  | _ :: rest => countExecuted inp rest

/-! ## Corpus stores (src/src/main.rs lines 166-181)

```rust
CachedOnDiskCorpus::new(format!("{}/queue/{}", output.display(), client_description.id()), 4096).unwrap(),
OnDiskCorpus::new(format!("{}/crashes", output.display())).unwrap(),
```
-/

/-- Configuration of one on-disk corpus store: its directory and, for a cached
store, the fixed number of in-memory resident entries. -/
structure CorpusConfig where
  dir : String
  cacheCapacity : Option Nat
deriving DecidableEq, Repr

/-- The active corpus of a client: `CachedOnDiskCorpus` under
`{output}/queue/{client_id}` with cache capacity 4096. -/
def queueCorpus (output : String) (clientId : Nat) : CorpusConfig :=
  { dir := output ++ "/queue/" ++ Nat.repr clientId
    cacheCapacity := some 4096 }

/-- The solution store: an uncached `OnDiskCorpus` under `{output}/crashes`,
shared by all clients. -/
def solutionCorpus (output : String) : CorpusConfig :=
  { dir := output ++ "/crashes"
    cacheCapacity := none }

/-- Appending to a common prefix is injective on strings. -/
theorem string_append_cancel {s a b : String} (h : s ++ a = s ++ b) : a = b := by
  have h1 : s.data ++ a.data = s.data ++ b.data := congrArg String.data h
  exact String.ext (List.append_cancel_left h1)

/-- A queue path never coincides with the crashes path: after cancelling the
shared output prefix, the suffixes differ at their second character. -/
theorem queue_suffix_ne_crashes (r : String) : "/queue/" ++ r ≠ "/crashes" := by
  intro h
  have h3 : ("/queue/" ++ r).data.get? 1 = some 'q' := rfl
  rw [h] at h3
  simp at h3

/-! ## MOpt mutator (src/src/main.rs lines 188-196)

```rust
let mutator = StdMOptMutator::new(&mut state, havoc_mutations().merge(tokens_mutations()), 7, 5)?;
```
-/

/-- A primitive mutation operator of the havoc / token-splicing libraries. -/
inductive MutOp where
  | bitFlip
  | byteFlip
  | arith
  | blockInsert
  | blockDelete
  | blockDup
  | tokenInsert
  | tokenReplace
deriving DecidableEq, Repr

/-- Modelled from the spec: the havoc operator library — bit/byte flips,
arithmetic, block insert/delete/duplicate (`havoc_mutations()` is libafl
code, not part of this repository). -/
def havocMutations : List MutOp :=
  [MutOp.bitFlip, MutOp.byteFlip, MutOp.arith,
   MutOp.blockInsert, MutOp.blockDelete, MutOp.blockDup]

/-- Modelled from the spec: the dictionary-token splicing operators
(`tokens_mutations()` is libafl code, not part of this repository). -/
def tokensMutations : List MutOp := [MutOp.tokenInsert, MutOp.tokenReplace]

/-- Configuration of the adaptive stacked (MOpt) mutator. -/
structure MOptConfig where
  ops : List MutOp
  maxStack : Nat
  phaseCycles : Nat
deriving DecidableEq, Repr

/-- The MOpt mutator as configured at lines 188-193: operator library = havoc
merged with token splicing, stack bound 7, phase cycle count 5. -/
def moptMutator : MOptConfig :=
  { ops := havocMutations ++ tokensMutations
    maxStack := 7
    phaseCycles := 5 }

/-- Modelled from the spec: the number of stacked operator applications in one
fuzzing cycle — a random draw `r`, reduced to the range `1..maxStack`. -/
def stackCount (cfg : MOptConfig) (r : Nat) : Nat := r % cfg.maxStack + 1

/-- The alternating adaptation phases of the MOpt scheme. -/
inductive MOptPhase where
  | pilot
  | core
deriving DecidableEq, Repr

/-- Modelled from the spec: pilot and core phases alternate, each lasting
`phaseCycles` fuzzing cycles. -/
def phaseOf (cfg : MOptConfig) (cycle : Nat) : MOptPhase :=
  if (cycle / cfg.phaseCycles) % 2 == 0 then MOptPhase.pilot else MOptPhase.core

/-- Modelled from the spec: one MOpt cycle stacks `stackCount` operator
applications drawn from the operator library onto the input. -/
def moptCycle (cfg : MOptConfig) (applyOp : MutOp → List Nat → List Nat)
    (picks : List Nat) (r : Nat) (inp : List Nat) : List Nat :=
  ((picks.take (stackCount cfg r)).map
      (fun i => cfg.ops.getD (i % cfg.ops.length) MutOp.bitFlip)).foldl
    (fun acc op => applyOp op acc) inp

/-! ## Executors and timeouts (src/src/main.rs lines 221-237)

```rust
let mut executor = InProcessExecutor::with_timeout(&mut harness, ..., Duration::new(1, 0))?;
let tracing = TracingStage::new(InProcessExecutor::new(&mut tracing_harness, ...)?);
```

Only the primary executor is constructed with an explicit timeout; the
tracing (cmplog) executor is built with `InProcessExecutor::new`, which takes
none. -/

/-- Timeout configuration of one in-process executor: the explicit timeout
passed at construction, in milliseconds, if any. -/
structure ExecutorConfig where
  explicitTimeoutMillis : Option Nat
deriving DecidableEq, Repr

/-- The primary fuzz executor: `with_timeout(..., Duration::new(1, 0))`. -/
def fuzzExecutor : ExecutorConfig := { explicitTimeoutMillis := some 1000 }

/-- The cmplog tracing executor: `InProcessExecutor::new`, no explicit
timeout. -/
def tracingExecutor : ExecutorConfig := { explicitTimeoutMillis := none }

/-- The executors that run harness executions inside the fuzz loop. -/
def fuzzLoopExecutors : List ExecutorConfig := [fuzzExecutor, tracingExecutor]

/-- Outcome of one watched harness execution. -/
inductive ExecOutcome where
  | completed (k : ExitKind)
  | abortedTimeout
deriving DecidableEq, Repr

/-- Modelled from the spec: the watchdog aborts an execution whose duration
exceeds the configured timeout and reports it as a timeout; otherwise the
harness result stands. -/
def watchdogRun (timeoutMillis durationMillis : Nat) (k : ExitKind) : ExecOutcome :=
  if timeoutMillis < durationMillis then ExecOutcome.abortedTimeout
  else ExecOutcome.completed k

/-! ## Client startup outcome (src/src/main.rs lines 252-288)

Both seed-bootstrap branches turn a library error into a panic (`expect` /
`unwrap_or_else(panic!)`), so on failure the client aborts with a message
before `fuzz_loop` is reached. -/

/-- How a client run turns out after the seed-loading step. -/
inductive ClientOutcome where
  | enteredFuzzLoop (importedSeeds : Nat)
  | fatal (msg : String)
deriving DecidableEq, Repr

/-- A `fatal` outcome is a Rust panic: the message is printed and the process
terminates with nonzero status. -/
def exitsNonzeroBeforeLoop : ClientOutcome → Bool
  | ClientOutcome.fatal _ => true
  | ClientOutcome.enteredFuzzLoop _ => false

/-- The seed-loading step of `fuzz` followed by entry into `fuzz_loop`:
dispatch per `seedBranch`; a failed `generate_initial_inputs` panics with
"Failed to generate the initial corpus", a failed `load_initial_inputs`
panics with "Failed to load initial corpus at {input}"; only success reaches
the loop, carrying the imported seed count. -/
def seedLoadOutcome {ε : Type} (inputPath : String)
    (readDirResult : Except ε (List String))
    (generateResult : Except String Nat)
    (loadResult : Except String Nat) : ClientOutcome :=
  match seedBranch readDirResult with
  | SeedBranch.generate =>
      match generateResult with
      | Except.ok n => ClientOutcome.enteredFuzzLoop n
      | Except.error _ => ClientOutcome.fatal "Failed to generate the initial corpus"
  | SeedBranch.loadFromDisk =>
      match loadResult with
      | Except.ok n => ClientOutcome.enteredFuzzLoop n
      | Except.error _ =>
          ClientOutcome.fatal ("Failed to load initial corpus at " ++ inputPath)

/-! ## Theorems for claims C10, C4, C1 -/

/-- C10: the in-process harness closure always returns `ExitKind::Ok` for
every target and every input; its returned value is never `Crash` nor
`Timeout`, so those classifications can only arise out-of-band. -/
theorem harness_always_returns_ok (target : List Nat → Unit) (input : List Nat) :
    harness target input = ExitKind.ok ∧
    harness target input ≠ ExitKind.crash ∧
    harness target input ≠ ExitKind.timeout := by
  refine ⟨rfl, ?_, ?_⟩ <;> simp [harness]

/-- C4: the per-iteration stage pipeline runs exactly calibration, then
comparison-log tracing, then input-to-state mutation, then power-scheduled
mutation, in that order and with no reordering: the full iteration trace is
that event sequence. -/
theorem stage_pipeline_order :
    iterationTrace =
      [StageEvent.ranCalibration, StageEvent.ranTracing,
       StageEvent.ranI2S, StageEvent.ranPower] := rfl

/-- C1 (code bug): on an existing but empty input directory the seed dispatch
takes the load-from-disk branch, not the generator branch, because
`read_dir(input).iter().len()` counts the `Ok` value of the `Result` (one
item) rather than the directory entries; the generator branch is taken exactly
when `read_dir` fails.  Moreover the configured generator draws arbitrary
bytes, not only printable ones: byte 0 is in its range yet not printable. -/
theorem empty_dir_takes_load_branch :
    dirExistsAndIsEmpty (Except.ok ([] : List String) : Except Unit (List String)) = true ∧
    seedBranch (Except.ok ([] : List String) : Except Unit (List String)) =
      SeedBranch.loadFromDisk ∧
    seedBranch (Except.error () : Except Unit (List String)) = SeedBranch.generate ∧
    randBytesInRange 0 = true ∧ printableByte 0 = false := by
  refine ⟨rfl, rfl, rfl, rfl, rfl⟩

/-- C2 counterexample: the claim says the objective classifies `Timeout` as a
solution, but the objective of line 163 contains only the crash detector, so
a `Timeout` result is not a solution. -/
theorem objective_timeout_not_solution :
    objectiveIsSolution ExitKind.timeout = false ∧
    ¬ (objectiveIsSolution ExitKind.timeout = true ↔
        (ExitKind.timeout = ExitKind.crash ∨ ExitKind.timeout = ExitKind.timeout)) := by
  decide

/-- C2 (amended): the objective oracle classifies an execution as a solution
iff the result is `Crash` (not `Timeout`), and exactly the solutions are
appended to the solution store by the post-execution bookkeeping. -/
theorem objective_crash_only (k : ExitKind) (st : FuzzState) (inp : List Nat)
    (interesting : Bool) :
    objectiveIsSolution k = decide (k = ExitKind.crash) ∧
    (processExecution st inp k interesting).solutions =
      (if k = ExitKind.crash then st.solutions ++ [inp] else st.solutions) := by
  cases k <;> cases interesting <;>
    simp [objectiveIsSolution, crashCheck, processExecution]

/-- C5: the feedback oracle is the short-circuiting OR of exactly the map
feedback and the time feedback: its verdict is the disjunction of the two, the
time feedback is evaluated only when the map feedback did not fire, and the
global coverage history is updated exactly when the map feedback fires. -/
theorem feedback_or_fast_map_time (st : FeedbackState) (obs : List Nat) (t : Nat) :
    (evalFeedback st obs t).interesting =
      (mapIsInteresting st.hist obs || timeIsInteresting st.bestTime t) ∧
    (evalFeedback st obs t).evaluated =
      (if mapIsInteresting st.hist obs then [SubFeedback.map]
       else [SubFeedback.map, SubFeedback.time]) ∧
    (evalFeedback st obs t).state.hist =
      (if mapIsInteresting st.hist obs then mapUpdate st.hist obs else st.hist) := by
  by_cases h1 : mapIsInteresting st.hist obs <;>
    by_cases h2 : timeIsInteresting st.bestTime t <;>
      simp [evalFeedback, h1, h2]

/-- C3 counterexample: a directory holding one readable one-byte file — the
harness is executed zero times on it, not once, because `run` only executes
files whose contents are longer than one byte. -/
theorem run_skips_one_byte_file :
    countExecuted [42] (runDirEvents [[42]]) = 0 ∧
    RunEvent.executed [42] ∉ runDirEvents [[42]] := by
  decide

/-- C3 (amended): for every readable file, `run` prints its banner and
executes the harness on its bytes exactly once when the contents are longer
than one byte, and zero times otherwise. -/
theorem run_executes_long_files_once (inp : List Nat) :
    countExecuted inp (runFileEvents inp) = (if 1 < inp.length then 1 else 0) ∧
    RunEvent.printedRunning inp ∈ runFileEvents inp := by
  by_cases h : 1 < inp.length <;> simp [runFileEvents, countExecuted, h]

/-- C6: the active corpus is a cached on-disk store with fixed in-memory
capacity 4096 under the per-client directory `{output}/queue/{id}`, distinct
directories for distinct client ids; the solution store is a physically
separate uncached on-disk store under the shared `{output}/crashes`
directory. -/
theorem corpus_stores_config :
    (∀ out id, (queueCorpus out id).cacheCapacity = some 4096 ∧
      (solutionCorpus out).cacheCapacity = none ∧
      (queueCorpus out id).dir ≠ (solutionCorpus out).dir) ∧
    ((List.range 16).Pairwise fun i j =>
      (queueCorpus "./output" i).dir ≠ (queueCorpus "./output" j).dir) := by
  refine ⟨fun out id => ⟨rfl, rfl, fun h => ?_⟩, by decide⟩
  rw [show (queueCorpus out id).dir = out ++ "/queue/" ++ Nat.repr id from rfl,
      show (solutionCorpus out).dir = out ++ "/crashes" from rfl,
      String.append_assoc] at h
  exact queue_suffix_ne_crashes (Nat.repr id) (string_append_cancel h)

/-- C7: the MOpt mutator is configured over the havoc operator library merged
with the dictionary-token splicing operators, with stack bound 7 and phase
cycle count 5: every cycle stacks between 1 and 7 operator applications, and
the pilot/core phases alternate every 5 cycles. -/
theorem mopt_mutator_config (r : Nat) :
    moptMutator.ops = havocMutations ++ tokensMutations ∧
    moptMutator.maxStack = 7 ∧
    moptMutator.phaseCycles = 5 ∧
    1 ≤ stackCount moptMutator r ∧
    stackCount moptMutator r ≤ 7 ∧
    phaseOf moptMutator 0 = MOptPhase.pilot ∧
    phaseOf moptMutator 4 = MOptPhase.pilot ∧
    phaseOf moptMutator 5 = MOptPhase.core ∧
    phaseOf moptMutator 10 = MOptPhase.pilot := by
  refine ⟨rfl, rfl, rfl, Nat.le_add_left 1 _, ?_, rfl, rfl, rfl, rfl⟩
  simp [stackCount, moptMutator]
  omega

/-- C8 counterexample: not every executor that runs harness executions inside
the fuzz loop is configured with the 1-second timeout — the cmplog tracing
executor is constructed without an explicit timeout. -/
theorem not_all_executors_one_second :
    ¬ ∀ e ∈ fuzzLoopExecutors, e.explicitTimeoutMillis = some 1000 := by
  decide

/-- C8 (amended): the primary fuzz executor is constructed with an explicit
hard timeout of 1 second and its watchdog aborts exactly the executions that
exceed it, whatever the harness would have returned; the tracing executor is
constructed without an explicit timeout (the library default applies there
instead). -/
theorem fuzz_executor_one_second_watchdog (d : Nat) (k : ExitKind) :
    fuzzExecutor.explicitTimeoutMillis = some 1000 ∧
    tracingExecutor.explicitTimeoutMillis = none ∧
    (watchdogRun 1000 d k = ExecOutcome.abortedTimeout ↔ 1000 < d) := by
  refine ⟨rfl, rfl, ?_⟩
  by_cases h : 1000 < d <;> simp [watchdogRun, h]

/-- C9: a failed seed load at startup is fatal — whichever bootstrap branch
ran, an error result yields a fatal outcome carrying one of the two
descriptive panic messages, the process exits nonzero, and the fuzz loop is
never entered. -/
theorem failed_seed_load_is_fatal {ε : Type} (rd : Except ε (List String))
    (inputPath e1 e2 : String) :
    exitsNonzeroBeforeLoop
      (seedLoadOutcome inputPath rd (Except.error e1) (Except.error e2)) = true ∧
    (∀ n, seedLoadOutcome inputPath rd (Except.error e1) (Except.error e2) ≠
      ClientOutcome.enteredFuzzLoop n) ∧
    (seedLoadOutcome inputPath rd (Except.error e1) (Except.error e2) =
        ClientOutcome.fatal "Failed to generate the initial corpus" ∨
      seedLoadOutcome inputPath rd (Except.error e1) (Except.error e2) =
        ClientOutcome.fatal ("Failed to load initial corpus at " ++ inputPath)) := by
  rcases h : seedBranch rd <;>
    simp [seedLoadOutcome, h, exitsNonzeroBeforeLoop]

end Golibafl
